import Mathlib

/-!
Verification development for the sonos_subnet integration
(custom_components/sonos_subnet).  The Python sources are shallowly
embedded: pure string-processing functions are translated directly to
Lean functions on `List Char` / `String`; network transports are made
explicit inputs (an outcome value per request); the poll cycle becomes a
pure map transformer.  Names follow the Python sources.
-/

namespace SonosSubnet

/-! ## Python string primitives -/

/-- Characters removed by the Python str.strip() default (ASCII whitespace). -/
def isPySpace (c : Char) : Bool :=
  c = ' ' || c = '\t' || c = '\n' || c = '\r' || c = '\x0b' || c = '\x0c'

/-- Python str.strip(): drop leading and trailing whitespace. -/
def pyStrip (s : List Char) : List Char :=
  ((s.dropWhile isPySpace).reverse.dropWhile isPySpace).reverse

/-- Truthiness of a Python value that is either None or a str:
None and the empty string are falsy. -/
def pyTruthy : Option String → Bool
  | none => false
  | some s => s ≠ ""

/-- Python `a or b` on (None | str) values. -/
def pyOrStr (a b : Option String) : Option String :=
  if pyTruthy a then a else b

/-- Python `a or d` where the right operand is a plain string. -/
def pyOrD (a : Option String) (d : String) : String :=
  match a with
  | some s => if s = "" then d else s
  | none => d

/-- Prepend a character onto the first field of a split result. -/
def splitConsField (c : Char) : List (List Char) → List (List Char)
  | h :: t => (c :: h) :: t
  | [] => [[c]]

/-- Python str.split(":"). -/
def splitColon : List Char → List (List Char)
  | [] => [[]]
  | c :: cs =>
    if c = ':' then [] :: splitColon cs
    else splitConsField c (splitColon cs)

/-- Fuel-driven core of Python str.replace (non-overlapping, left to right). -/
def replaceFuel (old new : List Char) : Nat → List Char → List Char
  | 0, s => s
  | _ + 1, [] => []
  | fuel + 1, c :: cs =>
    if old ≠ [] ∧ old.isPrefixOf (c :: cs) then
      new ++ replaceFuel old new fuel ((c :: cs).drop old.length)
    else
      c :: replaceFuel old new fuel cs

/-- Python str.replace(old, new) for a non-empty pattern: each replacement
or skip consumes at least one character, so length-many fuel suffices. -/
def pyReplace (s old new : List Char) : List Char :=
  replaceFuel old new s.length s

/-- Python substring containment (needle in hay). -/
def containsSubstring (hay needle : List Char) : Bool :=
  match hay with
  | [] => needle.isPrefixOf ([] : List Char)
  | _ :: t => needle.isPrefixOf hay || containsSubstring t needle

/-- Case-insensitive character comparison, as re.IGNORECASE on ASCII. -/
def ciEq (a b : Char) : Bool := a.toLower = b.toLower

/-- Case-insensitive literal match of a pattern against a text front. -/
def ciIsPrefixOf : List Char → List Char → Bool
  | [], _ => true
  | _ :: _, [] => false
  | p :: ps, t :: ts => ciEq p t && ciIsPrefixOf ps ts

/-! ## helpers.py: extract_xml_value

Python applies two regular expressions in order, each searched over the
whole text before the next is tried (helpers.py lines 80 to 92):

  pattern 1: `<tag>([^<]*)</tag>`
  pattern 2: `<tag[^>]*>([^<]*)</tag>`

both with re.IGNORECASE | re.DOTALL.  Because the capture class excludes
`<` and the attribute class excludes `>`, each regular expression has at
most one match at a given start position: the capture is exactly the run
of characters up to the next `<`, and the attribute run is exactly the
run up to the next `>`.  `matchTagAt` and `matchTagAttrAt` implement a
match attempt at one position; `searchWith` implements the leftmost
search of re.search. -/

/-- Attempt of pattern `<tag>([^<]*)</tag>` at the front of the text. -/
def matchTagAt (tag text : List Char) : Option (List Char) :=
  let openTag := '<' :: tag ++ ['>']
  if ciIsPrefixOf openTag text then
    let rest := text.drop openTag.length
    let cap := rest.takeWhile (fun c => c ≠ '<')
    let rest2 := rest.dropWhile (fun c => c ≠ '<')
    if ciIsPrefixOf ('<' :: '/' :: tag ++ ['>']) rest2 then some cap else none
  else none

/-- Attempt of pattern `<tag[^>]*>([^<]*)</tag>` at the front of the text. -/
def matchTagAttrAt (tag text : List Char) : Option (List Char) :=
  if ciIsPrefixOf ('<' :: tag) text then
    let rest := text.drop (tag.length + 1)
    match rest.dropWhile (fun c => c ≠ '>') with
    | '>' :: rest2 =>
      let cap := rest2.takeWhile (fun c => c ≠ '<')
      let rest3 := rest2.dropWhile (fun c => c ≠ '<')
      if ciIsPrefixOf ('<' :: '/' :: tag ++ ['>']) rest3 then some cap else none
    | _ => none
  else none

/-- Leftmost search of re.search: try the matcher at every start
position from the left, including the empty final position. -/
def searchWith (m : List Char → Option (List Char)) : List Char → Option (List Char)
  | [] => m []
  | c :: rest =>
    match m (c :: rest) with
    | some v => some v
    | none => searchWith m rest

/-- helpers.py extract_xml_value: search pattern 1 over the whole text,
then pattern 2; the captured group is stripped. -/
def extract_xml_value (xml_text tag : String) : Option String :=
  match searchWith (matchTagAt tag.data) xml_text.data with
  | some v => some (String.mk (pyStrip v))
  | none =>
    match searchWith (matchTagAttrAt tag.data) xml_text.data with
    | some v => some (String.mk (pyStrip v))
    | none => none

/-- Modelled from the spec (Tag Extractor contract): a single
first-match scan in which both the attribute-free and the
attribute-tolerant form are tried at each position, so the value of the
first occurrence of the tag in the text is returned.  This is the
statement of the claim, to be compared with `extract_xml_value`. -/
def extractFirstOccurrence (xml_text tag : String) : Option String :=
  match searchWith
      (fun t => (matchTagAt tag.data t).orElse (fun _ => matchTagAttrAt tag.data t))
      xml_text.data with
  | some v => some (String.mk (pyStrip v))
  | none => none

example : extract_xml_value "<Foo a=\"1\">Bar</Foo>" "foo" = some "Bar" := by decide

example : extract_xml_value "<foo x>A</foo><foo>B</foo>" "foo" = some "B" := by decide

example : extractFirstOccurrence "<foo x>A</foo><foo>B</foo>" "foo" = some "A" := by decide

/-! ## helpers.py: integer parsing and durations

Python int(str) accepts optional surrounding whitespace, an optional
sign, and decimal digits (digit-group underscores of Python literals are
not modelled; no input in this development contains them). -/

/-- Value of a decimal digit character. -/
def digitVal (c : Char) : Option Nat :=
  if '0' ≤ c ∧ c ≤ '9' then some (c.toNat - '0'.toNat) else none

/-- Accumulating decimal parse; fails on any non-digit. -/
def parseDigitsAux : Nat → List Char → Option Nat
  | acc, [] => some acc
  | acc, c :: cs =>
    match digitVal c with
    | some d => parseDigitsAux (acc * 10 + d) cs
    | none => none

/-- Parse a non-empty all-digit run. -/
def parseDigits : List Char → Option Nat
  | [] => none
  | c :: cs => parseDigitsAux 0 (c :: cs)

/-- Python int(str): strip whitespace, optional sign, decimal digits. -/
def pyInt (s : List Char) : Option Int :=
  match pyStrip s with
  | [] => none
  | c :: ds =>
    if c = '-' then (parseDigits ds).map (fun n => -(n : Int))
    else if c = '+' then (parseDigits ds).map (fun n => (n : Int))
    else (parseDigits (c :: ds)).map (fun n => (n : Int))

/-- Decimal digit character for a value below ten. -/
def digitChar (d : Nat) : Char := Char.ofNat ('0'.toNat + d)

/-- Fuel-driven decimal rendering of a natural number (most significant
digit first); fuel bounds the number of digits. -/
def natReprAux : Nat → Nat → List Char
  | 0, _ => []
  | fuel + 1, n =>
    if n < 10 then [digitChar n]
    else natReprAux fuel (n / 10) ++ [digitChar (n % 10)]

/-- Decimal rendering of a natural number, as Python str(int) on
non-negative values. -/
def natRepr (n : Nat) : List Char := natReprAux (n + 1) n

/-- Decimal rendering of an integer, as Python str(int). -/
def intRepr (i : Int) : List Char :=
  if i < 0 then '-' :: natRepr (-i).toNat else natRepr i.toNat

/-- Python format specifier 02d on a non-negative value: pad a single
digit with one leading zero. -/
def pad2 (n : Nat) : List Char :=
  if n < 10 then '0' :: natRepr n else natRepr n

/-- helpers.py format_duration: f-string `{hours}:{minutes:02d}:{secs:02d}`
with hours = seconds // 3600, minutes = (seconds % 3600) // 60,
secs = seconds % 60.  Python // is floor division and % has the sign of
the divisor, hence Int.fdiv and Int.fmod; minutes and secs are
non-negative for every input because the divisors are positive. -/
def format_duration (seconds : Int) : String :=
  let hours := seconds.fdiv 3600
  let minutes := (seconds.fmod 3600).fdiv 60
  let secs := seconds.fmod 60
  String.mk (intRepr hours ++ ':' :: pad2 minutes.toNat ++ ':' :: pad2 secs.toNat)

/-- helpers.py parse_duration: split on ":"; three fields are
hours/minutes/seconds, two fields are minutes/seconds; an empty string,
a field count other than two or three, or an unparsable field yields 0
(the ValueError of int() is caught and the function falls through). -/
def parse_duration (duration_str : String) : Int :=
  if duration_str = "" then 0
  else
    match splitColon duration_str.data with
    | [a, b, c] =>
      match pyInt a, pyInt b, pyInt c with
      | some x, some y, some z => x * 3600 + y * 60 + z
      | _, _, _ => 0
    | [a, b] =>
      match pyInt a, pyInt b with
      | some x, some y => x * 60 + y
      | _, _ => 0
    | _ => 0

example : parse_duration "0:03:45" = 225 := by decide
example : parse_duration "bad" = 0 := by decide
example : format_duration 225 = "0:03:45" := by decide
example : parse_duration (format_duration 3725) = 3725 := by decide

/-! ## Lemmas on decimal rendering and parsing -/

/-- Every character of a list is a decimal digit. -/
def allDigits (l : List Char) : Prop := ∀ c ∈ l, '0' ≤ c ∧ c ≤ '9'

theorem digitVal_digitChar {d : Nat} (h : d < 10) : digitVal (digitChar d) = some d := by
  interval_cases d <;> decide

theorem digitChar_bounds {d : Nat} (h : d < 10) :
    '0' ≤ digitChar d ∧ digitChar d ≤ '9' := by
  interval_cases d <;> decide

theorem parseDigitsAux_append (l1 : List Char) :
    ∀ acc m, parseDigitsAux acc l1 = some m →
      ∀ l2, parseDigitsAux acc (l1 ++ l2) = parseDigitsAux m l2 := by
  induction l1 with
  | nil =>
    intro acc m h l2
    simp only [parseDigitsAux] at h
    cases h
    simp
  | cons c cs ih =>
    intro acc m h l2
    simp only [parseDigitsAux] at h ⊢
    cases hd : digitVal c with
    | none => rw [hd] at h; cases h
    | some d =>
      rw [hd] at h
      simp only [List.cons_append, parseDigitsAux, hd]
      exact ih _ _ h l2

theorem allDigits_natReprAux (fuel : Nat) : ∀ n, allDigits (natReprAux fuel n) := by
  induction fuel with
  | zero => intro n c hc; cases hc
  | succ fuel ih =>
    intro n c hc
    simp only [natReprAux] at hc
    by_cases hn : n < 10
    · rw [if_pos hn, List.mem_singleton] at hc
      subst hc
      exact digitChar_bounds hn
    · rw [if_neg hn] at hc
      rcases List.mem_append.mp hc with hc | hc
      · exact ih _ _ hc
      · rw [List.mem_singleton] at hc
        subst hc
        exact digitChar_bounds (Nat.mod_lt _ (by norm_num))

theorem natReprAux_parse (fuel : Nat) :
    ∀ n acc, n < 10 ^ fuel →
      parseDigitsAux acc (natReprAux fuel n) =
        some (acc * 10 ^ (natReprAux fuel n).length + n) := by
  induction fuel with
  | zero =>
    intro n acc hn
    have : n = 0 := by simpa using hn
    subst this
    simp [natReprAux, parseDigitsAux]
  | succ fuel ih =>
    intro n acc hn
    by_cases h10 : n < 10
    · simp only [natReprAux, if_pos h10, parseDigitsAux, digitVal_digitChar h10]
      simp
    · simp only [natReprAux, if_neg h10]
      have hdiv : n / 10 < 10 ^ fuel := by
        rw [Nat.div_lt_iff_lt_mul (by norm_num)]
        calc n < 10 ^ (fuel + 1) := hn
          _ = 10 ^ fuel * 10 := by ring
      have h1 := ih (n / 10) acc hdiv
      rw [parseDigitsAux_append _ _ _ h1]
      simp only [parseDigitsAux, digitVal_digitChar (Nat.mod_lt n (by norm_num))]
      congr 1
      simp only [List.length_append, List.length_cons, List.length_nil]
      rw [pow_succ]
      have := Nat.div_add_mod n 10
      ring_nf
      omega

theorem natRepr_ne_nil (n : Nat) : natRepr n ≠ [] := by
  unfold natRepr natReprAux
  by_cases h10 : n < 10
  · simp [if_pos h10]
  · simp [if_neg h10]

theorem lt_ten_pow_succ_self (n : Nat) : n < 10 ^ (n + 1) := by
  calc n < 2 ^ n := Nat.lt_two_pow n
    _ ≤ 10 ^ n := Nat.pow_le_pow_left (by norm_num) n
    _ ≤ 10 ^ (n + 1) := Nat.pow_le_pow_right (by norm_num) (Nat.le_succ n)

theorem parseDigitsAux_natRepr (n : Nat) : parseDigitsAux 0 (natRepr n) = some n := by
  have := natReprAux_parse (n + 1) n 0 (lt_ten_pow_succ_self n)
  simpa [natRepr] using this

theorem parseDigits_eq_aux (l : List Char) (h : l ≠ []) :
    parseDigits l = parseDigitsAux 0 l := by
  cases l with
  | nil => exact absurd rfl h
  | cons c cs => rfl

theorem parseDigits_natRepr (n : Nat) : parseDigits (natRepr n) = some n := by
  rw [parseDigits_eq_aux _ (natRepr_ne_nil n), parseDigitsAux_natRepr]

theorem allDigits_natRepr (n : Nat) : allDigits (natRepr n) :=
  allDigits_natReprAux (n + 1) n

theorem pad2_ne_nil (m : Nat) : pad2 m ≠ [] := by
  unfold pad2
  by_cases h10 : m < 10
  · simp [if_pos h10]
  · simp [if_neg h10, natRepr_ne_nil]

theorem allDigits_pad2 (m : Nat) : allDigits (pad2 m) := by
  unfold pad2
  by_cases h10 : m < 10
  · rw [if_pos h10]
    intro c hc
    rw [List.mem_cons] at hc
    rcases hc with rfl | hc
    · exact ⟨le_refl _, by decide⟩
    · exact allDigits_natRepr m _ hc
  · rw [if_neg h10]
    exact allDigits_natRepr m

theorem parseDigits_pad2 (m : Nat) : parseDigits (pad2 m) = some m := by
  unfold pad2
  by_cases h10 : m < 10
  · rw [if_pos h10, parseDigits_eq_aux _ (by simp)]
    show parseDigitsAux 0 ('0' :: natRepr m) = some m
    simp only [parseDigitsAux]
    have h0 : digitVal '0' = some 0 := by decide
    rw [h0]
    simpa using parseDigitsAux_natRepr m
  · rw [if_neg h10]
    exact parseDigits_natRepr m

theorem isPySpace_eq_false {c : Char} (h1 : '0' ≤ c) (h2 : c ≤ '9') :
    isPySpace c = false := by
  simp only [isPySpace, Bool.or_eq_false_iff, decide_eq_false_iff_not]
  refine ⟨⟨⟨⟨⟨?_, ?_⟩, ?_⟩, ?_⟩, ?_⟩, ?_⟩ <;>
    (rintro rfl; revert h1 h2; decide)

theorem dropWhile_eq_self_of_head (p : Char → Bool) (l : List Char)
    (h : ∀ c ∈ l, p c = false) : l.dropWhile p = l := by
  cases l with
  | nil => rfl
  | cons c cs =>
    rw [List.dropWhile_cons, h c (by simp)]
    simp

theorem pyStrip_of_digits (l : List Char) (h : allDigits l) : pyStrip l = l := by
  have hmem : ∀ c ∈ l, isPySpace c = false := fun c hc =>
    isPySpace_eq_false (h c hc).1 (h c hc).2
  unfold pyStrip
  rw [dropWhile_eq_self_of_head _ _ hmem,
      dropWhile_eq_self_of_head _ _ (fun c hc => hmem c (List.mem_reverse.mp hc)),
      List.reverse_reverse]

theorem digit_ne_colon {c : Char} (h1 : '0' ≤ c) (h2 : c ≤ '9') : c ≠ ':' := by
  rintro rfl; revert h2; decide

theorem not_colon_mem_of_digits (l : List Char) (h : allDigits l) : ':' ∉ l := by
  intro hmem
  exact digit_ne_colon (h _ hmem).1 (h _ hmem).2 rfl

theorem splitColon_append (A : List Char) (h : ':' ∉ A) (rest : List Char) :
    splitColon (A ++ ':' :: rest) = A :: splitColon rest := by
  induction A with
  | nil => simp [splitColon]
  | cons a A ih =>
    have ha : a ≠ ':' := fun hc => h (by simp [hc])
    have hA : ':' ∉ A := fun hc => h (by simp [hc])
    have hstep : splitColon ((a :: A) ++ ':' :: rest) =
        splitConsField a (splitColon (A ++ ':' :: rest)) := by
      simp only [List.cons_append, splitColon, if_neg ha]
      rfl
    rw [hstep, ih hA]
    rfl

theorem splitColon_no_colon (C : List Char) (h : ':' ∉ C) : splitColon C = [C] := by
  induction C with
  | nil => rfl
  | cons c cs ih =>
    have hc : c ≠ ':' := fun hcc => h (by simp [hcc])
    have hcs : ':' ∉ cs := fun hcc => h (by simp [hcc])
    simp only [splitColon, if_neg hc, ih hcs]
    rfl

theorem pyInt_of_digits (l : List Char) (hne : l ≠ []) (hd : allDigits l)
    (k : Nat) (hp : parseDigits l = some k) : pyInt l = some (k : Int) := by
  unfold pyInt
  rw [pyStrip_of_digits l hd]
  cases l with
  | nil => exact absurd rfl hne
  | cons c cs =>
    have hcd := hd c (by simp)
    have hminus : c ≠ '-' := by rintro rfl; revert hcd; decide
    have hplus : c ≠ '+' := by rintro rfl; revert hcd; decide
    show (if c = '-' then (parseDigits cs).map (fun n => -(n : Int))
        else if c = '+' then (parseDigits cs).map (fun n => (n : Int))
        else (parseDigits (c :: cs)).map (fun n => (n : Int))) = some (k : Int)
    rw [if_neg hminus, if_neg hplus, hp]
    rfl

theorem intRepr_natCast (k : Nat) : intRepr ((k : Nat) : Int) = natRepr k := by
  unfold intRepr
  rw [if_neg (Int.not_lt.mpr (Int.natCast_nonneg k)), Int.toNat_natCast]

theorem mk_ne_empty_of_ne_nil (L : List Char) (h : L ≠ []) : String.mk L ≠ "" := by
  intro hh
  exact h (congrArg String.data hh)

/-- The duration round trip: parsing the formatted value of any
non-negative number of seconds returns that value. -/
theorem parse_format_duration (s : Nat) :
    parse_duration (format_duration ((s : Nat) : Int)) = ((s : Nat) : Int) := by
  have hdiv : (s : Int).fdiv 3600 = ((s / 3600 : Nat) : Int) := by
    rw [Int.fdiv_eq_ediv _ (by norm_num), Int.natCast_div]
    norm_num
  have hmod : (s : Int).fmod 3600 = ((s % 3600 : Nat) : Int) := by
    rw [Int.fmod_eq_emod _ (by norm_num), Int.natCast_mod]
    norm_num
  have hmod60 : (s : Int).fmod 60 = ((s % 60 : Nat) : Int) := by
    rw [Int.fmod_eq_emod _ (by norm_num), Int.natCast_mod]
    norm_num
  have hmin : ((s % 3600 : Nat) : Int).fdiv 60 = ((s % 3600 / 60 : Nat) : Int) := by
    rw [Int.fdiv_eq_ediv _ (by norm_num), Int.natCast_div]
    norm_num
  simp only [format_duration, hdiv, hmod, hmod60, hmin, intRepr_natCast,
    Int.toNat_natCast]
  rw [List.append_assoc, List.cons_append]
  have hX := allDigits_natRepr (s / 3600)
  have hP2 := allDigits_pad2 (s % 3600 / 60)
  have hP3 := allDigits_pad2 (s % 60)
  have hXne := natRepr_ne_nil (s / 3600)
  have hLne : natRepr (s / 3600) ++
      ':' :: (pad2 (s % 3600 / 60) ++ ':' :: pad2 (s % 60)) ≠ [] := by
    intro hh
    rcases List.append_eq_nil.mp hh with ⟨h1, _⟩
    exact hXne h1
  unfold parse_duration
  rw [if_neg (mk_ne_empty_of_ne_nil _ hLne)]
  rw [show (String.mk (natRepr (s / 3600) ++
      ':' :: (pad2 (s % 3600 / 60) ++ ':' :: pad2 (s % 60)))).data =
      natRepr (s / 3600) ++ ':' :: (pad2 (s % 3600 / 60) ++ ':' :: pad2 (s % 60))
      from rfl]
  rw [splitColon_append _ (not_colon_mem_of_digits _ hX) _,
    splitColon_append _ (not_colon_mem_of_digits _ hP2) _,
    splitColon_no_colon _ (not_colon_mem_of_digits _ hP3)]
  have h1 := pyInt_of_digits _ hXne hX _ (parseDigits_natRepr (s / 3600))
  have h2 := pyInt_of_digits _ (pad2_ne_nil _) hP2 _ (parseDigits_pad2 (s % 3600 / 60))
  have h3 := pyInt_of_digits _ (pad2_ne_nil _) hP3 _ (parseDigits_pad2 (s % 60))
  simp only [h1, h2, h3]
  omega


/-! ## helpers.py: send_upnp_command

The HTTP transport is made explicit: a `TransportOutcome` value records
what the aiohttp POST did (a status/body response, a client error, a
timeout, or any other raised exception).  send_upnp_command in
helpers.py lines 23 to 77 maps every outcome to a (success, body) pair:
the except clauses catch aiohttp.ClientError, asyncio.TimeoutError and
every remaining Exception, so the function is total and its only
caller-visible result is the pair. -/

/-- Outcome of one HTTP POST attempt by the transport. -/
inductive TransportOutcome where
  | response (status : Nat) (text : String)
  | clientError (msg : String)
  | timeout
  | unexpectedError (msg : String)
deriving DecidableEq

/-- helpers.py send_upnp_command as a function of the request data and
the transport outcome. -/
def send_upnp_command (ip service action arguments control_url : String)
    (timeout : Nat) (outcome : TransportOutcome) : Bool × String :=
  match outcome with
  | .response status text => if status = 200 then (true, text) else (false, text)
  | .clientError msg => (false, msg)
  | .timeout => (false, "Timeout")
  | .unexpectedError msg => (false, msg)

/-! ## helpers.py: parse_didl_metadata -/

/-- Keys of the metadata dict built by parse_didl_metadata; a field is
none when the key is absent or its value is Python None. -/
structure DidlMetadata where
  title : Option String
  artist : Option String
  album : Option String
  album_art : Option String
  stream_content : Option String
  radio_show : Option String
  duration_str : Option String
deriving DecidableEq

/-- The entity unescape chain of parse_didl_metadata (helpers.py line
122): four sequential str.replace calls. -/
def didlUnescape (s : List Char) : List Char :=
  pyReplace (pyReplace (pyReplace (pyReplace s
    "&lt;".data "<".data) "&gt;".data ">".data)
    "&quot;".data "\"".data) "&amp;".data "&".data

/-- Attempt of pattern duration="([^"]+)" at the front of the text
(case-sensitive; the capture is non-empty). -/
def matchDurationAt (text : List Char) : Option (List Char) :=
  let pre := "duration=\"".data
  if pre.isPrefixOf text then
    let rest := text.drop pre.length
    let cap := rest.takeWhile (fun c => c ≠ '"')
    let rest2 := rest.dropWhile (fun c => c ≠ '"')
    if cap = [] then none
    else if rest2 = [] then none
    else some cap
  else none

/-- helpers.py parse_didl_metadata: unescape, then extract the flat
fields; album art falls back to upnp:icon then albumArtURI when the
primary field is falsy; duration_str is set only when a res tag is
present and a duration attribute matches somewhere in the text. -/
def parse_didl_metadata (didl : String) : DidlMetadata :=
  if didl = "" then ⟨none, none, none, none, none, none, none⟩
  else
    let d := String.mk (didlUnescape didl.data)
    let album_art0 := extract_xml_value d "upnp:albumArtURI"
    { title := extract_xml_value d "dc:title"
      artist := extract_xml_value d "dc:creator"
      album := extract_xml_value d "upnp:album"
      album_art :=
        if pyTruthy album_art0 then album_art0
        else pyOrStr (extract_xml_value d "upnp:icon") (extract_xml_value d "albumArtURI")
      stream_content := extract_xml_value d "r:streamContent"
      radio_show := extract_xml_value d "r:radioShowMd"
      duration_str :=
        if pyTruthy (extract_xml_value d "res") then
          (searchWith matchDurationAt d.data).map (fun v => String.mk v)
        else none }

/-! ## coordinator.py: _get_position_info -/

/-- Keys of the data dict built by _get_position_info; a field is none
when the key is absent or its value is Python None. -/
structure PositionData where
  track_number : Option Int
  track_duration : Option Int
  track_position : Option Int
  track_uri : Option String
  track_title : Option String
  track_artist : Option String
  track_album : Option String
  album_art_uri : Option String
deriving DecidableEq

/-- helpers.py extract_xml_value_int: coerce the extracted value with
int(), returning the caller default when the value is falsy or
unparsable. -/
def extract_xml_value_int (xml_text tag : String) (dflt : Int) : Int :=
  match extract_xml_value xml_text tag with
  | some v =>
    if v ≠ "" then
      match pyInt v.data with
      | some n => n
      | none => dflt
    else dflt
  | none => dflt

/-- The live-stream test of coordinator.py line 208: the content URI
contains http, x-rincon-mp3radio or x-sonosapi-stream. -/
def uriIndicatesStream (track_uri : String) : Bool :=
  containsSubstring track_uri.data "http".data ||
  containsSubstring track_uri.data "x-rincon-mp3radio".data ||
  containsSubstring track_uri.data "x-sonosapi-stream".data

/-- Empty position data: the dict when the query failed. -/
def emptyPositionData : PositionData := ⟨none, none, none, none, none, none, none, none⟩

/-- coordinator.py _get_position_info as a function of the GetPositionInfo
outcome: success flag and response body of send_upnp_command.  On
success the position fields are always set; the metadata fields are set
only when TrackMetaData is truthy; the streaming fallback replaces a
missing title with StreamContent (from the response, else from the
parsed metadata) and a missing artist with the radio show field (else
the r:streamContent tag searched in the still-escaped metadata). -/
def _get_position_info (success : Bool) (response : String) : PositionData :=
  if success then
    let track_uri := pyOrD (extract_xml_value response "TrackURI") ""
    let metadata_raw := extract_xml_value response "TrackMetaData"
    let base : PositionData :=
      { track_number := some (extract_xml_value_int response "Track" 0)
        track_duration := some (parse_duration (pyOrD (extract_xml_value response "TrackDuration") ""))
        track_position := some (parse_duration (pyOrD (extract_xml_value response "RelTime") ""))
        track_uri := some track_uri
        track_title := none
        track_artist := none
        track_album := none
        album_art_uri := none }
    if pyTruthy metadata_raw then
      let mdstr := metadata_raw.getD ""
      let md := parse_didl_metadata mdstr
      let withMd := { base with
        track_title := md.title
        track_artist := md.artist
        track_album := md.album
        album_art_uri := md.album_art }
      if pyTruthy md.title = false ∧ uriIndicatesStream track_uri then
        let stream_info := pyOrStr (extract_xml_value response "StreamContent") md.stream_content
        let afterTitle :=
          if pyTruthy stream_info then { withMd with track_title := stream_info } else withMd
        let radio_show := pyOrStr md.radio_show (extract_xml_value mdstr "r:streamContent")
        if pyTruthy radio_show ∧ pyTruthy md.artist = false then
          { afterTitle with track_artist := radio_show }
        else afterTitle
      else withMd
    else base
  else emptyPositionData

/-! ## discovery.py: get_speaker_info and subnet scanning -/

/-- Attempt of pattern `<tag>([^<]+)</tag>` (non-empty capture, as used
by discovery.py) at the front of the text. -/
def matchTagNEAt (tag text : List Char) : Option (List Char) :=
  match matchTagAt tag text with
  | some [] => none
  | r => r

/-- Attempt of pattern `<tag[^>]*>([^<]+)</tag>` (non-empty capture) at
the front of the text. -/
def matchTagAttrNEAt (tag text : List Char) : Option (List Char) :=
  match matchTagAttrAt tag text with
  | some [] => none
  | r => r

/-- discovery.py _extract_xml_value: as extract_xml_value, but the
captured group is `([^<]+)` so an empty value never matches. -/
def _extract_xml_value (xml_text tag : String) : Option String :=
  match searchWith (matchTagNEAt tag.data) xml_text.data with
  | some v => some (String.mk (pyStrip v))
  | none =>
    match searchWith (matchTagAttrNEAt tag.data) xml_text.data with
    | some v => some (String.mk (pyStrip v))
    | none => none

/-- The speaker_info dict built by discovery.py get_speaker_info; keys
that may be absent or None are Options. -/
structure SpeakerInfo where
  ip_address : String
  port : Nat
  status_available : Bool
  zone_name : String
  model_name : String
  model_number : String
  serial_number : Option String
  software_version : Option String
  hardware_version : Option String
  mac_address : Option String
  household_id : Option String
  udn : Option String
  uuid : Option String
deriving DecidableEq

/-- discovery.py get_speaker_info as a function of the two HTTP fetches:
status_ok is whether the /status/zp GET returned 200, and desc is the
device-description body when that GET returned 200 (none models a
non-200 status, a network error, or a timeout, all of which make the
function return None).  The uuid key is set only when the UDN field is
truthy: the uuid: prefix is stripped when present, otherwise the UDN is
used verbatim; there is no fallback to the serial number or the address
inside this function. -/
def get_speaker_info (ip : String) (status_ok : Bool) (desc : Option String) :
    Option SpeakerInfo :=
  match desc with
  | none => none
  | some text =>
    let udn := _extract_xml_value text "UDN"
    some
      { ip_address := ip
        port := 1400
        status_available := status_ok
        zone_name := pyOrD (pyOrStr (_extract_xml_value text "roomName")
          (_extract_xml_value text "friendlyName")) ("Sonos (" ++ ip ++ ")")
        model_name := pyOrD (_extract_xml_value text "modelName") "Unknown"
        model_number := pyOrD (_extract_xml_value text "modelNumber") "Unknown"
        serial_number := pyOrStr (_extract_xml_value text "serialNum")
          (_extract_xml_value text "serialNumber")
        software_version := pyOrStr (_extract_xml_value text "softwareVersion")
          (_extract_xml_value text "swGen")
        hardware_version := _extract_xml_value text "hardwareVersion"
        mac_address := _extract_xml_value text "MACAddress"
        household_id := _extract_xml_value text "householdId"
        udn := if pyTruthy udn then udn else none
        uuid :=
          match udn with
          | some u =>
            if u ≠ "" then
              some (if "uuid:".data.isPrefixOf u.data then String.mk (u.data.drop 5) else u)
            else none
          | none => none }

/-- The device identity used by the entity layer (media_player.py line
109, also number.py and switch.py): uuid, falling back to the serial
number, falling back to the address. -/
def device_id (speaker_info : SpeakerInfo) (ip_address : String) : String :=
  pyOrD (pyOrStr speaker_info.uuid speaker_info.serial_number) ip_address

/-- Python str.split("."). -/
def splitDot : List Char → List (List Char)
  | [] => [[]]
  | c :: cs => if c = '.' then [] :: splitDot cs else splitConsField c (splitDot cs)

/-- Python str.split("/"). -/
def splitSlash : List Char → List (List Char)
  | [] => [[]]
  | c :: cs => if c = '/' then [] :: splitSlash cs else splitConsField c (splitSlash cs)

/-- One dotted-quad octet: decimal digits, value at most 255, no
leading zero on a multi-digit octet (the ipaddress module rejects
those). -/
def parseOctet (l : List Char) : Option Nat :=
  match parseDigits l with
  | some v =>
    if v ≤ 255 ∧ (l.length = 1 ∨ l.headD ' ' ≠ '0') then some v else none
  | none => none

/-- A dotted-quad IPv4 address as a 32-bit value. -/
def parseIPv4 (l : List Char) : Option Nat :=
  match splitDot l with
  | [a, b, c, d] =>
    match parseOctet a, parseOctet b, parseOctet c, parseOctet d with
    | some x, some y, some z, some w => some (((x * 256 + y) * 256 + z) * 256 + w)
    | _, _, _, _ => none
  | _ => none

/-- A decimal prefix length, at most 32. -/
def parsePrefixLen (l : List Char) : Option Nat :=
  match parseDigits l with
  | some p => if p ≤ 32 then some p else none
  | none => none

/-- Modelled from ipaddress.IPv4Network(subnet, strict=False) for the
address and address/prefix spellings the integration documents; other
spellings the Python ipaddress module also accepts (netmask and
hostmask suffixes) are not modelled.  strict=False keeps host bits: the
network address is computed by masking. -/
def parseIPv4Network (subnet : String) : Option (Nat × Nat) :=
  match splitSlash subnet.data with
  | [addr] => (parseIPv4 addr).map (fun a => (a, 32))
  | [addr, p] =>
    match parseIPv4 addr, parsePrefixLen p with
    | some a, some pl => some (a, pl)
    | _, _ => none
  | _ => none

/-- The network address of a parsed CIDR: host bits masked off. -/
def networkAddress (addr prefixLen : Nat) : Nat :=
  addr / 2 ^ (32 - prefixLen) * 2 ^ (32 - prefixLen)

/-- IPv4Network.hosts(): every usable host address.  For a prefix up to
30 the network and broadcast addresses are excluded; a /31 yields both
addresses and a /32 yields the single address (the ipaddress module
special-cases those two). -/
def hostsOfNetwork (addr prefixLen : Nat) : List Nat :=
  let net := networkAddress addr prefixLen
  if prefixLen = 32 then [net]
  else if prefixLen = 31 then [net, net + 1]
  else (List.range (2 ^ (32 - prefixLen) - 2)).map (fun i => net + 1 + i)

/-- discovery.py scan_subnet_for_sonos as a function of the probe
results: parse the CIDR (empty list on failure, before any probe),
enumerate hosts(), probe each address and keep the device records.  The
Python code probes in sequential batches of 50 concurrent requests and
appends results in per-batch zip order, which preserves address order,
so the aggregate is a single filterMap; a probe that raised or returned
None is a none result here. -/
def scan_subnet_for_sonos (subnet : String) (probe : Nat → Option SpeakerInfo) :
    List SpeakerInfo :=
  match parseIPv4Network subnet with
  | none => []
  | some (addr, p) => (hostsOfNetwork addr p).filterMap probe

/-! ## coordinator.py: the poll cycle -/

/-- Outcome of _update_speaker for one address, as seen by
_async_update_data through asyncio.gather(..., return_exceptions=True):
an exception, a speaker dict, or None (speaker not responding). -/
inductive PollResult (D : Type) where
  | exc (msg : String)
  | ok (fields : D)
  | noResponse
deriving DecidableEq

/-- One per-address snapshot: the merged fields plus the available
flag written by the cycle. -/
structure Snapshot (D : Type) where
  fields : D
  available : Bool
deriving DecidableEq

/-- One iteration of the result loop of _async_update_data (coordinator.py
lines 77 to 90): a successful result replaces the snapshot wholesale and
sets available true; an exception or a None result keeps the prior
snapshot, if any, with available forced false, and adds nothing when no
prior snapshot exists. -/
def updateEntry {D : Type} (prior acc : List (String × Snapshot D))
    (ip : String) (r : PollResult D) : List (String × Snapshot D) :=
  match r with
  | .ok d => acc ++ [(ip, ⟨d, true⟩)]
  | .exc _ =>
    match prior.lookup ip with
    | some s => acc ++ [(ip, ⟨s.fields, false⟩)]
    | none => acc
  | .noResponse =>
    match prior.lookup ip with
    | some s => acc ++ [(ip, ⟨s.fields, false⟩)]
    | none => acc

/-- coordinator.py _async_update_data as a function of the prior
snapshot map and the zipped (ip, result) pairs of the cycle: the new
map is built from an empty dict by the result loop.  The function is
total: per-device failures are data, not exceptions, so a cycle never
throws for any combination of 0..N device failures. -/
def _async_update_data {D : Type} (prior : List (String × Snapshot D))
    (results : List (String × PollResult D)) : List (String × Snapshot D) :=
  results.foldl (fun acc pr => updateEntry prior acc pr.1 pr.2) []

/-- A sequence of poll cycles starting from the empty snapshot map. -/
def runCycles {D : Type} (cycles : List (List (String × PollResult D))) :
    List (String × Snapshot D) :=
  cycles.foldl (fun m c => _async_update_data m c) []

/-! ## coordinator.py: _get_zone_group_info -/

/-- One ZoneGroup block of the topology payload: the Coordinator
attribute (none when the attribute is missing, which makes the loop
skip the block) and the (UUID, address) pairs of its ZoneGroupMember
elements. -/
structure ZoneGroup where
  coordinator : Option String
  members : List (String × String)

/-- The dict returned by _get_zone_group_info. -/
structure GroupInfo where
  group_members : List String
  is_coordinator : Bool
deriving DecidableEq

/-- The default: a device is its own standalone coordinator with no
group members. -/
def defaultGroupInfo : GroupInfo := ⟨[], true⟩

/-- Membership test of the block loop: a member matches when its UUID
equals the speaker UUID or its address equals the speaker address. -/
def memberMatches (speaker_uuid ip : String) (m : String × String) : Bool :=
  m.1 = speaker_uuid || m.2 = ip

/-- The ZoneGroup loop of _get_zone_group_info: skip blocks without a
Coordinator attribute; the first block containing the speaker supplies
the member address list and the coordinator flag, and the loop breaks. -/
def findGroup (speaker_uuid ip : String) : List ZoneGroup → GroupInfo
  | [] => defaultGroupInfo
  | g :: gs =>
    match g.coordinator with
    | none => findGroup speaker_uuid ip gs
    | some cu =>
      if g.members.any (memberMatches speaker_uuid ip) then
        ⟨g.members.map Prod.snd, cu == speaker_uuid⟩
      else findGroup speaker_uuid ip gs

/-- coordinator.py _get_zone_group_info as a function of the
GetZoneGroupState outcome: the success flag of send_upnp_command, the
speaker UUID found in the coordinator snapshot map (none or empty when
missing), whether a ZoneGroupState section was found in the response,
and the parsed ZoneGroup blocks.  Every early exit returns the
standalone default. -/
def _get_zone_group_info (success : Bool) (speaker_uuid : Option String)
    (stateFound : Bool) (groups : List ZoneGroup) (ip : String) : GroupInfo :=
  if success = false then defaultGroupInfo
  else if pyTruthy speaker_uuid = false then defaultGroupInfo
  else if stateFound = false then defaultGroupInfo
  else findGroup (speaker_uuid.getD "") ip groups

/-! ## Lemmas on tag extraction -/

theorem searchWith_orElse_none_iff (m1 m2 : List Char → Option (List Char)) :
    ∀ t, searchWith (fun s => (m1 s).orElse (fun _ => m2 s)) t = none ↔
      searchWith m1 t = none ∧ searchWith m2 t = none := by
  intro t
  induction t with
  | nil =>
    show (m1 []).orElse (fun _ => m2 []) = none ↔ m1 [] = none ∧ m2 [] = none
    cases h1 : m1 [] <;> cases h2 : m2 [] <;> simp [Option.orElse]
  | cons c rest ih =>
    cases h1 : m1 (c :: rest) with
    | some v =>
      have hcomb : searchWith (fun s => (m1 s).orElse (fun _ => m2 s)) (c :: rest) =
          some v := by
        show (match (m1 (c :: rest)).orElse (fun _ => m2 (c :: rest)) with
          | some w => some w
          | none => searchWith (fun s => (m1 s).orElse (fun _ => m2 s)) rest) = some v
        rw [h1]
        rfl
      have hm1 : searchWith m1 (c :: rest) = some v := by simp [searchWith, h1]
      simp [hcomb, hm1]
    | none =>
      cases h2 : m2 (c :: rest) with
      | some v =>
        have hcomb : searchWith (fun s => (m1 s).orElse (fun _ => m2 s)) (c :: rest) =
            some v := by
          show (match (m1 (c :: rest)).orElse (fun _ => m2 (c :: rest)) with
            | some w => some w
            | none => searchWith (fun s => (m1 s).orElse (fun _ => m2 s)) rest) = some v
          rw [h1]
          show (match m2 (c :: rest) with
            | some w => some w
            | none => searchWith (fun s => (m1 s).orElse (fun _ => m2 s)) rest) = some v
          rw [h2]
        have hm2 : searchWith m2 (c :: rest) = some v := by simp [searchWith, h2]
        simp [hcomb, hm2]
      | none =>
        have hcomb : searchWith (fun s => (m1 s).orElse (fun _ => m2 s)) (c :: rest) =
            searchWith (fun s => (m1 s).orElse (fun _ => m2 s)) rest := by
          show (match (m1 (c :: rest)).orElse (fun _ => m2 (c :: rest)) with
            | some w => some w
            | none => searchWith (fun s => (m1 s).orElse (fun _ => m2 s)) rest) = _
          rw [h1]
          show (match m2 (c :: rest) with
            | some w => some w
            | none => searchWith (fun s => (m1 s).orElse (fun _ => m2 s)) rest) = _
          rw [h2]
        have hm1 : searchWith m1 (c :: rest) = searchWith m1 rest := by
          simp [searchWith, h1]
        have hm2 : searchWith m2 (c :: rest) = searchWith m2 rest := by
          simp [searchWith, h2]
        rw [hcomb, hm1, hm2, ih]

theorem extract_xml_value_eq_none_iff (xml_text tag : String) :
    extract_xml_value xml_text tag = none ↔
      searchWith (matchTagAt tag.data) xml_text.data = none ∧
      searchWith (matchTagAttrAt tag.data) xml_text.data = none := by
  unfold extract_xml_value
  cases h1 : searchWith (matchTagAt tag.data) xml_text.data <;>
    cases h2 : searchWith (matchTagAttrAt tag.data) xml_text.data <;> simp [h1, h2]

theorem extractFirstOccurrence_eq_none_iff (xml_text tag : String) :
    extractFirstOccurrence xml_text tag = none ↔
      searchWith (fun t => (matchTagAt tag.data t).orElse (fun _ => matchTagAttrAt tag.data t))
        xml_text.data = none := by
  unfold extractFirstOccurrence
  cases h : searchWith (fun t => (matchTagAt tag.data t).orElse
      (fun _ => matchTagAttrAt tag.data t)) xml_text.data <;> simp [h]

/-! ## Claim theorems -/

/-- C6 counterexample: extract_xml_value does not return the value of
the first occurrence of the tag.  In the text below the first
occurrence of tag foo is the attributed one, with value A, but because
the attribute-free pattern is searched over the whole text before the
attribute-tolerant one, the later plain occurrence wins and B is
returned; a single scan trying both forms at each position (the
claimed behaviour, extractFirstOccurrence) returns A. -/
theorem spec_C6_counterexample :
    extract_xml_value "<foo x>A</foo><foo>B</foo>" "foo" = some "B" ∧
    extractFirstOccurrence "<foo x>A</foo><foo>B</foo>" "foo" = some "A" ∧
    extract_xml_value "<foo x>A</foo><foo>B</foo>" "foo" ≠
      extractFirstOccurrence "<foo x>A</foo><foo>B</foo>" "foo" := by
  refine ⟨by decide, by decide, by decide⟩

/-- C6 as amended: the extraction is case-insensitive and tolerant of
attributes on the opening tag and returns a trimmed value or none, but
the occurrence returned is the first attribute-free occurrence anywhere
in the text when one exists, and only otherwise the first
attribute-tolerant occurrence; extraction returns none exactly when the
text has no occurrence of either form.  The concrete example of the
claim still holds: extracting foo from the Foo a="1" element yields
Bar. -/
theorem spec_C6 :
    extract_xml_value "<Foo a=\"1\">Bar</Foo>" "foo" = some "Bar" ∧
    (∀ xml_text tag, extract_xml_value xml_text tag = none ↔
      extractFirstOccurrence xml_text tag = none) ∧
    (∀ xml_text tag v, searchWith (matchTagAt tag.data) xml_text.data = some v →
      extract_xml_value xml_text tag = some (String.mk (pyStrip v))) := by
  refine ⟨by decide, ?_, ?_⟩
  · intro xml_text tag
    rw [extract_xml_value_eq_none_iff, extractFirstOccurrence_eq_none_iff,
      searchWith_orElse_none_iff]
  · intro xml_text tag v h
    unfold extract_xml_value
    rw [h]

/-- C6 witness: the amended theorem applied at a concrete text with an
attribute-free occurrence. -/
theorem spec_C6_witness :
    searchWith (matchTagAt "a".data) "<a> hi </a>".data = some " hi ".data ∧
    extract_xml_value "<a> hi </a>" "a" = some "hi" := by
  refine ⟨by decide, ?_⟩
  have h := spec_C6.2.2 "<a> hi </a>" "a" " hi ".data (by decide)
  simpa using h

/-- C8: parseDuration("0:03:45") is 225, parseDuration("bad") is 0, and
parse_duration is a left inverse of format_duration on [0, 359999]
seconds (the proof of parse_format_duration covers every natural
number, of which the claimed range is a subset). -/
theorem spec_C8 :
    parse_duration "0:03:45" = 225 ∧
    parse_duration "bad" = 0 ∧
    ∀ s : Nat, s ≤ 359999 →
      parse_duration (format_duration ((s : Nat) : Int)) = ((s : Nat) : Int) := by
  refine ⟨by decide, by decide, fun s _ => parse_format_duration s⟩

/-- C8 witness: the round trip applied at 3725 seconds (1:02:05). -/
theorem spec_C8_witness :
    (3725 : Nat) ≤ 359999 ∧
    parse_duration (format_duration ((3725 : Nat) : Int)) = ((3725 : Nat) : Int) :=
  ⟨by norm_num, spec_C8.2.2 3725 (by norm_num)⟩

/-- C2: for every request, the send operation returns success true
exactly when the transport returned HTTP 200; a non-200 status returns
the response body, a connection error returns the error text, a timeout
returns the literal Timeout, and any other raised exception returns its
text — the function is total over every transport outcome, so no
exception propagates past this boundary and the caller-visible result
is always the (success, body) pair. -/
theorem spec_C2 :
    ∀ ip service action arguments control_url timeout,
    (∀ o, (send_upnp_command ip service action arguments control_url timeout o).1 = true ↔
      ∃ text, o = TransportOutcome.response 200 text) ∧
    (∀ s t, s ≠ 200 →
      send_upnp_command ip service action arguments control_url timeout
        (TransportOutcome.response s t) = (false, t)) ∧
    (∀ m, send_upnp_command ip service action arguments control_url timeout
      (TransportOutcome.clientError m) = (false, m)) ∧
    (send_upnp_command ip service action arguments control_url timeout
      TransportOutcome.timeout = (false, "Timeout")) ∧
    (∀ m, send_upnp_command ip service action arguments control_url timeout
      (TransportOutcome.unexpectedError m) = (false, m)) := by
  intro ip service action arguments control_url timeout
  refine ⟨?_, ?_, fun m => rfl, rfl, fun m => rfl⟩
  · intro o
    cases o with
    | response s t =>
      by_cases hs : s = 200
      · subst hs
        simp [send_upnp_command]
      · simp [send_upnp_command, if_neg hs, hs]
    | clientError m => simp [send_upnp_command]
    | timeout => simp [send_upnp_command]
    | unexpectedError m => simp [send_upnp_command]
  · intro s t hs
    simp [send_upnp_command, if_neg hs]

/-- C2 witness: the non-200 branch applied at status 500. -/
theorem spec_C2_witness :
    (500 : Nat) ≠ 200 ∧
    send_upnp_command "192.168.10.1" "AVTransport" "Play" "<InstanceID>0</InstanceID>"
      "/MediaRenderer/AVTransport/Control" 10
      (TransportOutcome.response 500 "soap fault") = (false, "soap fault") :=
  ⟨by norm_num,
    (spec_C2 "192.168.10.1" "AVTransport" "Play" "<InstanceID>0</InstanceID>"
      "/MediaRenderer/AVTransport/Control" 10).2.1 500 "soap fault" (by norm_num)⟩

/-! ## Lemmas on zone-group resolution -/

theorem findGroup_skip (uuid ip : String) (g : ZoneGroup) (gs : List ZoneGroup)
    (h : g.coordinator = none ∨ g.members.any (memberMatches uuid ip) = false) :
    findGroup uuid ip (g :: gs) = findGroup uuid ip gs := by
  rcases h with h | h
  · simp [findGroup, h]
  · cases hco : g.coordinator with
    | none => simp [findGroup, hco]
    | some cu => simp [findGroup, hco, h]

theorem findGroup_hit (uuid ip : String) (g : ZoneGroup) (gs : List ZoneGroup)
    (cu : String) (hco : g.coordinator = some cu)
    (hmem : g.members.any (memberMatches uuid ip) = true) :
    findGroup uuid ip (g :: gs) = ⟨g.members.map Prod.snd, cu == uuid⟩ := by
  simp [findGroup, hco, hmem]

theorem findGroup_first (uuid ip : String) :
    ∀ (gs1 : List ZoneGroup) (g : ZoneGroup) (gs2 : List ZoneGroup) (cu : String),
    (∀ g1 ∈ gs1, g1.coordinator = none ∨ g1.members.any (memberMatches uuid ip) = false) →
    g.coordinator = some cu →
    g.members.any (memberMatches uuid ip) = true →
    findGroup uuid ip (gs1 ++ g :: gs2) = ⟨g.members.map Prod.snd, cu == uuid⟩ := by
  intro gs1
  induction gs1 with
  | nil =>
    intro g gs2 cu _ hco hmem
    exact findGroup_hit uuid ip g gs2 cu hco hmem
  | cons g1 gs1 ih =>
    intro g gs2 cu hskip hco hmem
    rw [List.cons_append,
      findGroup_skip uuid ip g1 _ (hskip g1 (by simp))]
    exact ih g gs2 cu (fun g2 h2 => hskip g2 (by simp [h2])) hco hmem

theorem findGroup_no_match (uuid ip : String) :
    ∀ gs : List ZoneGroup,
    (∀ g ∈ gs, g.members.any (memberMatches uuid ip) = false) →
    findGroup uuid ip gs = defaultGroupInfo := by
  intro gs
  induction gs with
  | nil => intro _; rfl
  | cons g gs ih =>
    intro h
    rw [findGroup_skip uuid ip g gs (Or.inr (h g (by simp)))]
    exact ih (fun g2 h2 => h g2 (by simp [h2]))

/-- C3: the block loop selects the first block whose member list
contains the speaker UUID or the speaker address (blocks without a
Coordinator attribute and blocks not containing the speaker are
skipped) and reports the block member addresses together with
is_coordinator equal to (block coordinator == speaker UUID); and the
concrete two-block example of the claim: with a block of coordinator X
and members X, Y and a block of coordinator Z and member Z, resolving
for Y yields is_coordinator false with the X and Y addresses, and
resolving for Z yields is_coordinator true with the Z address. -/
theorem spec_C3 :
    (∀ (uuid ip : String) (gs1 : List ZoneGroup) (g : ZoneGroup)
        (gs2 : List ZoneGroup) (cu : String),
      (∀ g1 ∈ gs1, g1.coordinator = none ∨
        g1.members.any (memberMatches uuid ip) = false) →
      g.coordinator = some cu →
      g.members.any (memberMatches uuid ip) = true →
      _get_zone_group_info true (some uuid) true (gs1 ++ g :: gs2) ip =
        if uuid = "" then defaultGroupInfo
        else ⟨g.members.map Prod.snd, cu == uuid⟩) ∧
    (_get_zone_group_info true (some "RINCON_Y") true
        [⟨some "RINCON_X", [("RINCON_X", "192.168.10.1"), ("RINCON_Y", "192.168.10.2")]⟩,
         ⟨some "RINCON_Z", [("RINCON_Z", "192.168.10.3")]⟩] "192.168.10.2" =
      ⟨["192.168.10.1", "192.168.10.2"], false⟩) ∧
    (_get_zone_group_info true (some "RINCON_Z") true
        [⟨some "RINCON_X", [("RINCON_X", "192.168.10.1"), ("RINCON_Y", "192.168.10.2")]⟩,
         ⟨some "RINCON_Z", [("RINCON_Z", "192.168.10.3")]⟩] "192.168.10.3" =
      ⟨["192.168.10.3"], true⟩) := by
  refine ⟨?_, by decide, by decide⟩
  intro uuid ip gs1 g gs2 cu hskip hco hmem
  by_cases hu : uuid = ""
  · subst hu
    simp [_get_zone_group_info, pyTruthy, defaultGroupInfo]
  · unfold _get_zone_group_info
    rw [if_neg hu]
    have ht : pyTruthy (some uuid) = true := by simp [pyTruthy, hu]
    rw [ht]
    have h := findGroup_first uuid ip gs1 g gs2 cu hskip hco hmem
    simpa using h

/-- C3 witness: the first-match selection applied with a non-matching
block ahead of the matching one. -/
theorem spec_C3_witness :
    _get_zone_group_info true (some "RINCON_Y") true
        ([⟨some "RINCON_Z", [("RINCON_Z", "192.168.10.3")]⟩] ++
          (⟨some "RINCON_X",
            [("RINCON_X", "192.168.10.1"), ("RINCON_Y", "192.168.10.2")]⟩ : ZoneGroup) ::
          []) "192.168.10.2" =
      ⟨["192.168.10.1", "192.168.10.2"], false⟩ := by
  have h := spec_C3.1 "RINCON_Y" "192.168.10.2"
    [⟨some "RINCON_Z", [("RINCON_Z", "192.168.10.3")]⟩]
    ⟨some "RINCON_X", [("RINCON_X", "192.168.10.1"), ("RINCON_Y", "192.168.10.2")]⟩
    [] "RINCON_X"
    (by
      intro g1 h1
      rw [List.mem_singleton] at h1
      subst h1
      right
      decide)
    rfl (by decide)
  simpa using h

/-- C5: the group resolution returns the standalone default of no
members and is_coordinator true when the topology query failed, when no
topology section was found in the response, or when no block member
list contains the speaker UUID or address - the device is treated as
its own standalone group. -/
theorem spec_C5 :
    ∀ (success : Bool) (speaker_uuid : Option String) (stateFound : Bool)
      (groups : List ZoneGroup) (ip : String),
    (success = false →
      _get_zone_group_info success speaker_uuid stateFound groups ip = defaultGroupInfo) ∧
    (stateFound = false →
      _get_zone_group_info success speaker_uuid stateFound groups ip = defaultGroupInfo) ∧
    ((∀ g ∈ groups,
        g.members.any (memberMatches (speaker_uuid.getD "") ip) = false) →
      _get_zone_group_info success speaker_uuid stateFound groups ip = defaultGroupInfo) ∧
    defaultGroupInfo = ⟨[], true⟩ := by
  intro success speaker_uuid stateFound groups ip
  refine ⟨?_, ?_, ?_, rfl⟩
  · intro h
    subst h
    rfl
  · intro h
    subst h
    unfold _get_zone_group_info
    cases success <;> cases pyTruthy speaker_uuid <;> rfl
  · intro h
    unfold _get_zone_group_info
    cases success with
    | false => rfl
    | true =>
      cases hpt : pyTruthy speaker_uuid with
      | false => rfl
      | true =>
        cases stateFound with
        | false => rfl
        | true =>
          show findGroup (speaker_uuid.getD "") ip groups = defaultGroupInfo
          exact findGroup_no_match _ _ groups h

/-- C5 witness: the three default cases applied at concrete inputs. -/
theorem spec_C5_witness :
    (_get_zone_group_info false (some "RINCON_A") true
      [⟨some "RINCON_A", [("RINCON_A", "192.168.10.1")]⟩] "192.168.10.1" =
        defaultGroupInfo) ∧
    (_get_zone_group_info true (some "RINCON_A") false
      [⟨some "RINCON_A", [("RINCON_A", "192.168.10.1")]⟩] "192.168.10.1" =
        defaultGroupInfo) ∧
    (_get_zone_group_info true (some "RINCON_A") true
      [⟨some "RINCON_B", [("RINCON_B", "192.168.10.2")]⟩] "192.168.10.1" =
        defaultGroupInfo) :=
  ⟨((spec_C5 false (some "RINCON_A") true
      [⟨some "RINCON_A", [("RINCON_A", "192.168.10.1")]⟩] "192.168.10.1").1 rfl),
   ((spec_C5 true (some "RINCON_A") false
      [⟨some "RINCON_A", [("RINCON_A", "192.168.10.1")]⟩] "192.168.10.1").2.1 rfl),
   ((spec_C5 true (some "RINCON_A") true
      [⟨some "RINCON_B", [("RINCON_B", "192.168.10.2")]⟩] "192.168.10.1").2.2.1
      (by
        intro g hg
        rw [List.mem_singleton] at hg
        subst hg
        decide))⟩

/-! ## Lemmas on the poll cycle -/

section CycleLemmas

variable {D : Type}

theorem lookup_cons_self (k : String) (v : Snapshot D) (l : List (String × Snapshot D)) :
    ((k, v) :: l).lookup k = some v := by
  simp [List.lookup]

theorem lookup_cons_ne (a k : String) (v : Snapshot D) (l : List (String × Snapshot D))
    (h : a ≠ k) : ((a, v) :: l).lookup k = l.lookup k := by
  simp [List.lookup, beq_false_of_ne (Ne.symm h)]

theorem lookup_append (l1 l2 : List (String × Snapshot D)) (k : String) :
    (l1 ++ l2).lookup k =
      match l1.lookup k with
      | some v => some v
      | none => l2.lookup k := by
  induction l1 with
  | nil => rfl
  | cons p l1 ih =>
    rcases p with ⟨a, v⟩
    by_cases ha : a = k
    · subst ha
      rw [List.cons_append]
      rw [lookup_cons_self a v (l1 ++ l2), lookup_cons_self a v l1]
    · rw [List.cons_append, lookup_cons_ne a k v (l1 ++ l2) ha,
        lookup_cons_ne a k v l1 ha, ih]

theorem updateEntry_append (prior acc : List (String × Snapshot D)) (ip : String)
    (r : PollResult D) :
    updateEntry prior acc ip r = acc ++ updateEntry prior [] ip r := by
  cases r with
  | ok d => simp [updateEntry]
  | exc m =>
    cases h : prior.lookup ip <;> simp [updateEntry, h]
  | noResponse =>
    cases h : prior.lookup ip <;> simp [updateEntry, h]

theorem foldl_update_acc (prior : List (String × Snapshot D)) :
    ∀ (rs : List (String × PollResult D)) (acc : List (String × Snapshot D)),
    rs.foldl (fun a p => updateEntry prior a p.1 p.2) acc =
      acc ++ rs.foldl (fun a p => updateEntry prior a p.1 p.2) [] := by
  intro rs
  induction rs with
  | nil => intro acc; simp
  | cons pr rs ih =>
    intro acc
    show rs.foldl _ (updateEntry prior acc pr.1 pr.2) = _
    rw [ih (updateEntry prior acc pr.1 pr.2), updateEntry_append prior acc pr.1 pr.2,
      List.append_assoc]
    congr 1
    show _ = rs.foldl _ (updateEntry prior [] pr.1 pr.2)
    rw [ih (updateEntry prior [] pr.1 pr.2)]

theorem update_cons (prior : List (String × Snapshot D)) (pr : String × PollResult D)
    (rs : List (String × PollResult D)) :
    _async_update_data prior (pr :: rs) =
      updateEntry prior [] pr.1 pr.2 ++ _async_update_data prior rs := by
  show rs.foldl _ (updateEntry prior [] pr.1 pr.2) = _
  exact foldl_update_acc prior rs (updateEntry prior [] pr.1 pr.2)

theorem lookup_updateEntry_ok (prior : List (String × Snapshot D)) (ip : String) (d : D) :
    (updateEntry prior [] ip (PollResult.ok d)).lookup ip = some ⟨d, true⟩ := by
  simp [updateEntry, lookup_cons_self]

theorem updateEntry_fail_some (prior : List (String × Snapshot D)) (ip : String)
    (r : PollResult D) (hnok : ∀ d, r ≠ PollResult.ok d) (s : Snapshot D)
    (hs : prior.lookup ip = some s) :
    updateEntry prior [] ip r = [(ip, ⟨s.fields, false⟩)] := by
  cases r with
  | ok d => exact absurd rfl (hnok d)
  | exc m => simp [updateEntry, hs]
  | noResponse => simp [updateEntry, hs]

theorem updateEntry_fail_none (prior : List (String × Snapshot D)) (ip : String)
    (r : PollResult D) (hnok : ∀ d, r ≠ PollResult.ok d)
    (hs : prior.lookup ip = none) :
    updateEntry prior [] ip r = [] := by
  cases r with
  | ok d => exact absurd rfl (hnok d)
  | exc m => simp [updateEntry, hs]
  | noResponse => simp [updateEntry, hs]

theorem lookup_updateEntry_ne (prior : List (String × Snapshot D)) (k ip : String)
    (r : PollResult D) (h : k ≠ ip) :
    (updateEntry prior [] k r).lookup ip = none := by
  cases r with
  | ok d =>
    have he : updateEntry prior [] k (PollResult.ok d) = [(k, ⟨d, true⟩)] := rfl
    rw [he, lookup_cons_ne k ip _ [] h]
    rfl
  | exc m =>
    cases hp : prior.lookup k with
    | some s0 =>
      rw [updateEntry_fail_some prior k _ (fun d hh => PollResult.noConfusion hh) s0 hp,
        lookup_cons_ne k ip _ [] h]
      rfl
    | none =>
      rw [updateEntry_fail_none prior k _ (fun d hh => PollResult.noConfusion hh) hp]
      rfl
  | noResponse =>
    cases hp : prior.lookup k with
    | some s0 =>
      rw [updateEntry_fail_some prior k _ (fun d hh => PollResult.noConfusion hh) s0 hp,
        lookup_cons_ne k ip _ [] h]
      rfl
    | none =>
      rw [updateEntry_fail_none prior k _ (fun d hh => PollResult.noConfusion hh) hp]
      rfl

theorem cycle_lookup_ok (prior : List (String × Snapshot D)) :
    ∀ rs : List (String × PollResult D), (rs.map Prod.fst).Nodup →
    ∀ ip d, (ip, PollResult.ok d) ∈ rs →
    (_async_update_data prior rs).lookup ip = some ⟨d, true⟩ := by
  intro rs
  induction rs with
  | nil => intro _ ip d h; cases h
  | cons pr rs ih =>
    intro hnd ip d hmem
    rcases pr with ⟨k, r⟩
    rw [update_cons, lookup_append]
    rw [List.map_cons, List.nodup_cons] at hnd
    rcases List.mem_cons.mp hmem with heq | htl
    · rcases Prod.mk.injEq .. ▸ heq with ⟨h1, h2⟩
      cases h1
      cases h2
      rw [lookup_updateEntry_ok]
    · have hk : k ≠ ip := by
        intro hk
        subst hk
        exact hnd.1 (List.mem_map.mpr ⟨(k, PollResult.ok d), htl, rfl⟩)
      rw [lookup_updateEntry_ne prior k ip r hk]
      exact ih hnd.2 ip d htl

theorem cycle_lookup_fail (prior : List (String × Snapshot D)) :
    ∀ rs : List (String × PollResult D), (rs.map Prod.fst).Nodup →
    ∀ ip r, (ip, r) ∈ rs → (∀ d, r ≠ PollResult.ok d) →
    ∀ s, prior.lookup ip = some s →
    (_async_update_data prior rs).lookup ip = some ⟨s.fields, false⟩ := by
  intro rs
  induction rs with
  | nil => intro _ ip r h; cases h
  | cons pr rs ih =>
    intro hnd ip r hmem hnok s hs
    rcases pr with ⟨k, r0⟩
    rw [update_cons, lookup_append]
    rw [List.map_cons, List.nodup_cons] at hnd
    rcases List.mem_cons.mp hmem with heq | htl
    · rcases Prod.mk.injEq .. ▸ heq with ⟨h1, h2⟩
      cases h1
      cases h2
      rw [updateEntry_fail_some prior ip r hnok s hs, lookup_cons_self]
    · have hk : k ≠ ip := by
        intro hk
        subst hk
        exact hnd.1 (List.mem_map.mpr ⟨(k, r), htl, rfl⟩)
      rw [lookup_updateEntry_ne prior k ip r0 hk]
      exact ih hnd.2 ip r htl hnok s hs

theorem cycle_lookup_not_mem (prior : List (String × Snapshot D)) :
    ∀ rs : List (String × PollResult D), ∀ ip, ip ∉ rs.map Prod.fst →
    (_async_update_data prior rs).lookup ip = none := by
  intro rs
  induction rs with
  | nil => intro ip _; rfl
  | cons pr rs ih =>
    intro ip hip
    rcases pr with ⟨k, r⟩
    rw [update_cons, lookup_append]
    have hk : k ≠ ip := by
      intro hk
      exact hip (by simp [hk])
    rw [lookup_updateEntry_ne prior k ip r hk]
    exact ih ip (fun hc => hip (by simp [hc]))

theorem cycle_lookup_never_ok (prior : List (String × Snapshot D)) :
    ∀ rs : List (String × PollResult D), ∀ ip, prior.lookup ip = none →
    (∀ r, (ip, r) ∈ rs → ∀ d, r ≠ PollResult.ok d) →
    (_async_update_data prior rs).lookup ip = none := by
  intro rs
  induction rs with
  | nil => intro ip _ _; rfl
  | cons pr rs ih =>
    intro ip hp hnok
    rcases pr with ⟨k, r⟩
    rw [update_cons, lookup_append]
    by_cases hk : k = ip
    · subst hk
      rw [updateEntry_fail_none prior k r (hnok r (by simp)) hp]
      show (_async_update_data prior rs).lookup k = none
      exact ih k hp (fun r2 h2 => hnok r2 (by simp [h2]))
    · rw [lookup_updateEntry_ne prior k ip r hk]
      exact ih ip hp (fun r2 h2 => hnok r2 (by simp [h2]))

theorem cycle_available_iff (prior : List (String × Snapshot D)) :
    ∀ rs : List (String × PollResult D), (rs.map Prod.fst).Nodup →
    ∀ ip s, (_async_update_data prior rs).lookup ip = some s →
    (s.available = true ↔ ∃ d, (ip, PollResult.ok d) ∈ rs) := by
  intro rs
  induction rs with
  | nil => intro _ ip s h; cases h
  | cons pr rs ih =>
    intro hnd ip s hs
    rcases pr with ⟨k, r⟩
    rw [update_cons, lookup_append] at hs
    rw [List.map_cons, List.nodup_cons] at hnd
    by_cases hk : k = ip
    · subst hk
      have hknot : k ∉ rs.map Prod.fst := hnd.1
      cases r with
      | ok d =>
        rw [lookup_updateEntry_ok] at hs
        cases hs
        simp
      | exc m =>
        cases hp : prior.lookup k with
        | some s0 =>
          rw [updateEntry_fail_some prior k _ (fun d h => PollResult.noConfusion h) s0 hp,
            lookup_cons_self] at hs
          cases hs
          constructor
          · intro h
            cases h
          · rintro ⟨d, hd⟩
            rcases List.mem_cons.mp hd with heq | htl
            · cases Prod.mk.injEq .. ▸ heq |>.2
            · exact absurd (List.mem_map.mpr ⟨(k, PollResult.ok d), htl, rfl⟩) hknot
        | none =>
          rw [updateEntry_fail_none prior k _ (fun d h => PollResult.noConfusion h) hp] at hs
          rw [show (([] : List (String × Snapshot D)).lookup k) = none from rfl] at hs
          rw [cycle_lookup_not_mem prior rs k hknot] at hs
          cases hs
      | noResponse =>
        cases hp : prior.lookup k with
        | some s0 =>
          rw [updateEntry_fail_some prior k _ (fun d h => PollResult.noConfusion h) s0 hp,
            lookup_cons_self] at hs
          cases hs
          constructor
          · intro h
            cases h
          · rintro ⟨d, hd⟩
            rcases List.mem_cons.mp hd with heq | htl
            · cases Prod.mk.injEq .. ▸ heq |>.2
            · exact absurd (List.mem_map.mpr ⟨(k, PollResult.ok d), htl, rfl⟩) hknot
        | none =>
          rw [updateEntry_fail_none prior k _ (fun d h => PollResult.noConfusion h) hp] at hs
          rw [show (([] : List (String × Snapshot D)).lookup k) = none from rfl] at hs
          rw [cycle_lookup_not_mem prior rs k hknot] at hs
          cases hs
    · rw [lookup_updateEntry_ne prior k ip r hk] at hs
      rw [ih hnd.2 ip s hs]
      constructor
      · rintro ⟨d, hd⟩
        exact ⟨d, by simp [hd]⟩
      · rintro ⟨d, hd⟩
        rcases List.mem_cons.mp hd with heq | htl
        · exact absurd (Prod.mk.injEq .. ▸ heq).1.symm hk
        · exact ⟨d, htl⟩

theorem cycle_provenance (prior : List (String × Snapshot D)) :
    ∀ rs : List (String × PollResult D), ∀ ip s,
    (_async_update_data prior rs).lookup ip = some s →
    (ip, PollResult.ok s.fields) ∈ rs ∨
      ∃ s0, prior.lookup ip = some s0 ∧ s0.fields = s.fields := by
  intro rs
  induction rs with
  | nil => intro ip s h; cases h
  | cons pr rs ih =>
    intro ip s hs
    rcases pr with ⟨k, r⟩
    rw [update_cons, lookup_append] at hs
    by_cases hk : k = ip
    · subst hk
      cases r with
      | ok d =>
        rw [lookup_updateEntry_ok] at hs
        cases hs
        left
        exact List.mem_cons_self _ _
      | exc m =>
        cases hp : prior.lookup k with
        | some s0 =>
          rw [updateEntry_fail_some prior k _ (fun d h => PollResult.noConfusion h) s0 hp,
            lookup_cons_self] at hs
          cases hs
          right
          exact ⟨s0, rfl, rfl⟩
        | none =>
          rw [updateEntry_fail_none prior k _ (fun d h => PollResult.noConfusion h) hp] at hs
          rw [show (([] : List (String × Snapshot D)).lookup k) = none from rfl] at hs
          rcases ih k s hs with h | ⟨s1, h1, _⟩
          · exact Or.inl (List.mem_cons_of_mem _ h)
          · rw [hp] at h1
            cases h1
      | noResponse =>
        cases hp : prior.lookup k with
        | some s0 =>
          rw [updateEntry_fail_some prior k _ (fun d h => PollResult.noConfusion h) s0 hp,
            lookup_cons_self] at hs
          cases hs
          right
          exact ⟨s0, rfl, rfl⟩
        | none =>
          rw [updateEntry_fail_none prior k _ (fun d h => PollResult.noConfusion h) hp] at hs
          rw [show (([] : List (String × Snapshot D)).lookup k) = none from rfl] at hs
          rcases ih k s hs with h | ⟨s1, h1, _⟩
          · exact Or.inl (List.mem_cons_of_mem _ h)
          · rw [hp] at h1
            cases h1
    · rw [lookup_updateEntry_ne prior k ip r hk] at hs
      rcases ih ip s hs with h | h
      · exact Or.inl (List.mem_cons_of_mem _ h)
      · exact Or.inr h

theorem runCycles_never_ok :
    ∀ (cycles : List (List (String × PollResult D)))
      (m : List (String × Snapshot D)) (ip : String),
    m.lookup ip = none →
    (∀ c ∈ cycles, ∀ r, (ip, r) ∈ c → ∀ d, r ≠ PollResult.ok d) →
    (cycles.foldl (fun mm cc => _async_update_data mm cc) m).lookup ip = none := by
  intro cycles
  induction cycles with
  | nil => intro m ip hm _; exact hm
  | cons c cs ih =>
    intro m ip hm hnok
    show (cs.foldl _ (_async_update_data m c)).lookup ip = none
    exact ih (_async_update_data m c) ip
      (cycle_lookup_never_ok m c ip hm (hnok c (by simp)))
      (fun c2 h2 => hnok c2 (by simp [h2]))

theorem runCycles_provenance :
    ∀ (cycles : List (List (String × PollResult D)))
      (m : List (String × Snapshot D)) (ip : String) (s : Snapshot D),
    (cycles.foldl (fun mm cc => _async_update_data mm cc) m).lookup ip = some s →
    (∃ c ∈ cycles, (ip, PollResult.ok s.fields) ∈ c) ∨
      ∃ s0, m.lookup ip = some s0 ∧ s0.fields = s.fields := by
  intro cycles
  induction cycles with
  | nil => intro m ip s h; exact Or.inr ⟨s, h, rfl⟩
  | cons c cs ih =>
    intro m ip s hs
    rcases ih (_async_update_data m c) ip s hs with h | ⟨s0, h0, hf⟩
    · rcases h with ⟨c2, hc2, hm2⟩
      exact Or.inl ⟨c2, by simp [hc2], hm2⟩
    · rcases cycle_provenance m c ip s0 h0 with h | ⟨s1, h1, hf1⟩
      · rw [hf] at h
        exact Or.inl ⟨c, by simp, h⟩
      · exact Or.inr ⟨s1, h1, hf1.trans hf⟩

end CycleLemmas

/-- C1: the poll cycle is a total function of the per-device results,
so a failure polling one device can not abort the cycle or affect the
other devices; for every tracked address with distinct addresses, a
successful poll replaces the snapshot wholesale with available true,
and a failed poll (exception or no response) of a device with a stored
snapshot keeps that snapshot fields unchanged with available forced
false.  The concrete part is the 3-device scenario of the claim: device
2 times out at the device level while devices 1 and 3 succeed; the
result map holds the two fresh snapshots and the retained device-2
snapshot with available false. -/
theorem spec_C1 :
    (∀ (D : Type) (prior : List (String × Snapshot D))
        (rs : List (String × PollResult D)),
      (rs.map Prod.fst).Nodup →
      (∀ ip d, (ip, PollResult.ok d) ∈ rs →
        (_async_update_data prior rs).lookup ip = some ⟨d, true⟩) ∧
      (∀ ip r, (ip, r) ∈ rs → (∀ d, r ≠ PollResult.ok d) →
        ∀ s, prior.lookup ip = some s →
          (_async_update_data prior rs).lookup ip = some ⟨s.fields, false⟩)) ∧
    (_async_update_data
        ([("192.168.10.1", ⟨"snap1-old", true⟩), ("192.168.10.2", ⟨"snap2-old", true⟩),
          ("192.168.10.3", ⟨"snap3-old", true⟩)] : List (String × Snapshot String))
        [("192.168.10.1", PollResult.ok "snap1-new"),
         ("192.168.10.2", PollResult.exc "TimeoutError"),
         ("192.168.10.3", PollResult.ok "snap3-new")] =
      [("192.168.10.1", ⟨"snap1-new", true⟩), ("192.168.10.2", ⟨"snap2-old", false⟩),
       ("192.168.10.3", ⟨"snap3-new", true⟩)]) := by
  refine ⟨?_, by decide⟩
  intro D prior rs hnd
  exact ⟨cycle_lookup_ok prior rs hnd, cycle_lookup_fail prior rs hnd⟩

/-- C1 witness: the general cycle theorem applied to the concrete
3-device scenario. -/
theorem spec_C1_witness :
    (_async_update_data
        ([("192.168.10.1", ⟨"snap1-old", true⟩), ("192.168.10.2", ⟨"snap2-old", true⟩),
          ("192.168.10.3", ⟨"snap3-old", true⟩)] : List (String × Snapshot String))
        [("192.168.10.1", PollResult.ok "snap1-new"),
         ("192.168.10.2", PollResult.exc "TimeoutError"),
         ("192.168.10.3", PollResult.ok "snap3-new")]).lookup "192.168.10.1" =
      some ⟨"snap1-new", true⟩ ∧
    (_async_update_data
        ([("192.168.10.1", ⟨"snap1-old", true⟩), ("192.168.10.2", ⟨"snap2-old", true⟩),
          ("192.168.10.3", ⟨"snap3-old", true⟩)] : List (String × Snapshot String))
        [("192.168.10.1", PollResult.ok "snap1-new"),
         ("192.168.10.2", PollResult.exc "TimeoutError"),
         ("192.168.10.3", PollResult.ok "snap3-new")]).lookup "192.168.10.2" =
      some ⟨"snap2-old", false⟩ :=
  ⟨(spec_C1.1 String
      [("192.168.10.1", ⟨"snap1-old", true⟩), ("192.168.10.2", ⟨"snap2-old", true⟩),
       ("192.168.10.3", ⟨"snap3-old", true⟩)]
      [("192.168.10.1", PollResult.ok "snap1-new"),
       ("192.168.10.2", PollResult.exc "TimeoutError"),
       ("192.168.10.3", PollResult.ok "snap3-new")] (by decide)).1
      "192.168.10.1" "snap1-new" (by decide),
   (spec_C1.1 String
      [("192.168.10.1", ⟨"snap1-old", true⟩), ("192.168.10.2", ⟨"snap2-old", true⟩),
       ("192.168.10.3", ⟨"snap3-old", true⟩)]
      [("192.168.10.1", PollResult.ok "snap1-new"),
       ("192.168.10.2", PollResult.exc "TimeoutError"),
       ("192.168.10.3", PollResult.ok "snap3-new")] (by decide)).2
      "192.168.10.2" (PollResult.exc "TimeoutError") (by decide)
      (fun d h => PollResult.noConfusion h) ⟨"snap2-old", true⟩ (by decide)⟩

/-- C10: over any sequence of poll cycles starting from the empty map,
an address whose result was never a successful poll is absent from the
snapshot map (no placeholder snapshot is created); within one cycle
over distinct addresses, every stored snapshot carries available true
exactly when that address polled successfully in the cycle that
produced the map; and every stored snapshot fields value originates
from a successful poll of some past cycle. -/
theorem spec_C10 :
    (∀ (D : Type) (cycles : List (List (String × PollResult D))) (a : String),
      (∀ c ∈ cycles, ∀ r, (a, r) ∈ c → ∀ d, r ≠ PollResult.ok d) →
      (runCycles cycles).lookup a = none) ∧
    (∀ (D : Type) (prior : List (String × Snapshot D))
        (rs : List (String × PollResult D)),
      (rs.map Prod.fst).Nodup →
      ∀ a s, (_async_update_data prior rs).lookup a = some s →
        (s.available = true ↔ ∃ d, (a, PollResult.ok d) ∈ rs)) ∧
    (∀ (D : Type) (cycles : List (List (String × PollResult D))) (a : String)
        (s : Snapshot D),
      (runCycles cycles).lookup a = some s →
      ∃ c ∈ cycles, (a, PollResult.ok s.fields) ∈ c) := by
  refine ⟨?_, ?_, ?_⟩
  · intro D cycles a h
    exact runCycles_never_ok cycles [] a rfl h
  · intro D prior rs hnd a s hs
    exact cycle_available_iff prior rs hnd a s hs
  · intro D cycles a s hs
    rcases runCycles_provenance cycles [] a s hs with h | ⟨s0, h0, _⟩
    · exact h
    · cases h0

/-- C10 witness: the three invariants applied at concrete cycles. -/
theorem spec_C10_witness :
    ((runCycles ([[("192.168.10.9", PollResult.exc "unreachable")],
        [("192.168.10.9", PollResult.noResponse)]] :
        List (List (String × PollResult String)))).lookup "192.168.10.9" = none) ∧
    ((Snapshot.available ⟨"old", false⟩ = true) ↔
      ∃ d, ("192.168.10.9", PollResult.ok d) ∈
        ([("192.168.10.9", PollResult.noResponse)] : List (String × PollResult String))) ∧
    (∃ c ∈ ([[("192.168.10.7", PollResult.ok "fresh")]] :
        List (List (String × PollResult String))),
      ("192.168.10.7", PollResult.ok (Snapshot.fields ⟨"fresh", true⟩)) ∈ c) := by
  refine ⟨?_, ?_, ?_⟩
  · exact spec_C10.1 String
      [[("192.168.10.9", PollResult.exc "unreachable")],
       [("192.168.10.9", PollResult.noResponse)]] "192.168.10.9"
      (by
        intro c hc r hr d
        rcases List.mem_cons.mp hc with rfl | hc2
        · rw [List.mem_singleton] at hr
          cases (Prod.mk.injEq .. ▸ hr).2
          exact fun h => PollResult.noConfusion h
        · rw [List.mem_singleton] at hc2
          subst hc2
          rw [List.mem_singleton] at hr
          cases (Prod.mk.injEq .. ▸ hr).2
          exact fun h => PollResult.noConfusion h)
  · exact spec_C10.2.1 String [("192.168.10.9", ⟨"old", true⟩)]
      [("192.168.10.9", PollResult.noResponse)] (by decide)
      "192.168.10.9" ⟨"old", false⟩ (by decide)
  · exact spec_C10.2.2 String [[("192.168.10.7", PollResult.ok "fresh")]]
      "192.168.10.7" ⟨"fresh", true⟩ (by decide)

/-! ## Lemmas on the device identity fallback -/

theorem device_id_uuid (info : SpeakerInfo) (ip u : String)
    (h : info.uuid = some u) (hne : u ≠ "") : device_id info ip = u := by
  simp [device_id, pyOrStr, pyTruthy, pyOrD, h, hne]

theorem device_id_serial (info : SpeakerInfo) (ip sn : String)
    (hu : pyTruthy info.uuid = false) (h : info.serial_number = some sn)
    (hne : sn ≠ "") : device_id info ip = sn := by
  simp [device_id, pyOrStr, hu, h, pyOrD, hne]

theorem device_id_ip (info : SpeakerInfo) (ip : String)
    (hu : pyTruthy info.uuid = false) (hs : pyTruthy info.serial_number = false) :
    device_id info ip = ip := by
  simp only [device_id, pyOrStr, hu]
  rw [if_neg (by simp)]
  cases h : info.serial_number with
  | none => rfl
  | some sn =>
    have he : sn = "" := by
      rw [h] at hs
      simpa [pyTruthy] using hs
    subst he
    rfl

/-- C4 counterexample: a successful descriptor fetch of a document with
a serial number but no UDN field records no stable identifier at all -
get_speaker_info leaves the uuid key unset instead of falling back to
the serial number (or the address), so the claim that the identifier
recorded by a successful fetch falls back to the serial-number field,
and is therefore always non-absent, fails on this input. -/
theorem spec_C4_counterexample :
    (get_speaker_info "192.168.10.5" true
        (some "<serialNum>SN123</serialNum>")).map
        (fun i => (i.uuid, i.serial_number)) = some (none, some "SN123") := by
  decide

/-- C4 as amended: on a successful fetch the uuid recorded by
get_speaker_info is the UDN value with a uuid: prefix stripped (UDN
verbatim without the prefix) and is absent whenever the UDN field is
absent or empty - the fetch itself never falls back.  The
serial-number and address fallbacks live downstream, in the entity
construction (media_player.py, switch.py, number.py): the device
identity is uuid, else the serial number, else the address. -/
theorem spec_C4 :
    ∀ (ip : String) (status_ok : Bool) (text : String) (info : SpeakerInfo),
    get_speaker_info ip status_ok (some text) = some info →
    (info.uuid = (match _extract_xml_value text "UDN" with
      | some u => if u = "" then none
                  else some (if "uuid:".data.isPrefixOf u.data then String.mk (u.data.drop 5)
                             else u)
      | none => none)) ∧
    (∀ u, info.uuid = some u → u ≠ "" → device_id info ip = u) ∧
    (pyTruthy info.uuid = false → ∀ sn, info.serial_number = some sn → sn ≠ "" →
      device_id info ip = sn) ∧
    (pyTruthy info.uuid = false → pyTruthy info.serial_number = false →
      device_id info ip = ip) := by
  intro ip status_ok text info h
  simp only [get_speaker_info] at h
  rw [Option.some_inj] at h
  subst h
  refine ⟨?_, ?_, ?_, ?_⟩
  · cases hu : _extract_xml_value text "UDN" with
    | none => simp
    | some u =>
      by_cases hue : u = ""
      · subst hue
        simp
      · simp [hue]
  · intro u hu hne
    exact device_id_uuid _ ip u hu hne
  · intro hu sn hsn hne
    exact device_id_serial _ ip sn hu hsn hne
  · intro hu hs
    exact device_id_ip _ ip hu hs

/-- C4 witness: the amended theorem applied to a descriptor whose UDN
carries the uuid: prefix. -/
theorem spec_C4_witness :
    device_id
      { ip_address := "1.2.3.4", port := 1400, status_available := true,
        zone_name := "Sonos (1.2.3.4)", model_name := "Unknown",
        model_number := "Unknown", serial_number := none,
        software_version := none, hardware_version := none,
        mac_address := none, household_id := none,
        udn := some "uuid:RINCON_1", uuid := some "RINCON_1" } "1.2.3.4" =
      "RINCON_1" :=
  (spec_C4 "1.2.3.4" true "<UDN>uuid:RINCON_1</UDN>"
    { ip_address := "1.2.3.4", port := 1400, status_available := true,
      zone_name := "Sonos (1.2.3.4)", model_name := "Unknown",
      model_number := "Unknown", serial_number := none,
      software_version := none, hardware_version := none,
      mac_address := none, household_id := none,
      udn := some "uuid:RINCON_1", uuid := some "RINCON_1" }
    (by decide)).2.1 "RINCON_1" rfl (by decide)

/-- C7: scanning a subnet whose CIDR fails to parse returns the empty
list identically in the probe function, so no address is probed; on a
parse the scan is exactly a filter of the probe over hosts(); for a
prefix up to 30, hosts() is exactly the addresses strictly between the
network and broadcast addresses; 192.168.1.0/30 parses to the network
3232235776 with prefix 30 whose hosts() has exactly 2 addresses; and
every returned record is the result of a successful probe. -/
theorem spec_C7 :
    (∀ subnet, parseIPv4Network subnet = none →
      ∀ probe, scan_subnet_for_sonos subnet probe = []) ∧
    (∀ subnet addr p probe, parseIPv4Network subnet = some (addr, p) →
      scan_subnet_for_sonos subnet probe = (hostsOfNetwork addr p).filterMap probe) ∧
    (∀ addr p, p ≤ 30 → ∀ x, x ∈ hostsOfNetwork addr p ↔
      networkAddress addr p < x ∧ x < networkAddress addr p + (2 ^ (32 - p) - 1)) ∧
    (parseIPv4Network "192.168.1.0/30" = some (3232235776, 30)) ∧
    ((hostsOfNetwork 3232235776 30).length = 2) ∧
    (∀ subnet probe r, r ∈ scan_subnet_for_sonos subnet probe →
      ∃ ip, probe ip = some r) := by
  refine ⟨?_, ?_, ?_, by decide, by decide, ?_⟩
  · intro subnet h probe
    simp [scan_subnet_for_sonos, h]
  · intro subnet addr p probe h
    simp [scan_subnet_for_sonos, h]
  · intro addr p hp x
    have h32 : p ≠ 32 := by omega
    have h31 : p ≠ 31 := by omega
    simp only [hostsOfNetwork, if_neg h32, if_neg h31, List.mem_map, List.mem_range]
    constructor
    · rintro ⟨i, hi, rfl⟩
      omega
    · rintro ⟨h1, h2⟩
      exact ⟨x - networkAddress addr p - 1, by omega, by omega⟩
  · intro subnet probe r hr
    unfold scan_subnet_for_sonos at hr
    cases h : parseIPv4Network subnet with
    | none =>
      rw [h] at hr
      cases hr
    | some ap =>
      rw [h] at hr
      rcases List.mem_filterMap.mp hr with ⟨ip, _, hip⟩
      exact ⟨ip, hip⟩

/-- C7 witness: the iff characterization of usable hosts applied to
192.168.1.0/30, and the parse-failure case applied to a malformed
CIDR. -/
theorem spec_C7_witness :
    (3232235777 ∈ hostsOfNetwork 3232235776 30 ↔
      networkAddress 3232235776 30 < 3232235777 ∧
      3232235777 < networkAddress 3232235776 30 + (2 ^ (32 - 30) - 1)) ∧
    scan_subnet_for_sonos "not-a-subnet" (fun _ => none) = [] :=
  ⟨spec_C7.2.2.1 3232235776 30 (by norm_num) 3232235777,
   spec_C7.1 "not-a-subnet" (by decide) (fun _ => none)⟩

/-! ## Lemmas on the position-info streaming fallback -/

theorem position_fallback_eq (response mdstr : String)
    (hmd : extract_xml_value response "TrackMetaData" = some mdstr)
    (hne : mdstr ≠ "")
    (htitle : pyTruthy (parse_didl_metadata mdstr).title = false)
    (huri : uriIndicatesStream (pyOrD (extract_xml_value response "TrackURI") "") = true) :
    (_get_position_info true response).track_title =
      (if pyTruthy (pyOrStr (extract_xml_value response "StreamContent")
            (parse_didl_metadata mdstr).stream_content) = true
        then pyOrStr (extract_xml_value response "StreamContent")
          (parse_didl_metadata mdstr).stream_content
        else (parse_didl_metadata mdstr).title) ∧
    (_get_position_info true response).track_artist =
      (if pyTruthy (pyOrStr (parse_didl_metadata mdstr).radio_show
            (extract_xml_value mdstr "r:streamContent")) = true ∧
          pyTruthy (parse_didl_metadata mdstr).artist = false
        then pyOrStr (parse_didl_metadata mdstr).radio_show
          (extract_xml_value mdstr "r:streamContent")
        else (parse_didl_metadata mdstr).artist) := by
  have hmdt : pyTruthy (some mdstr) = true := by simp [pyTruthy, hne]
  simp only [_get_position_info, hmd, hmdt, Option.getD, if_true, htitle, huri]
  by_cases hsi : pyTruthy (pyOrStr (extract_xml_value response "StreamContent")
      (parse_didl_metadata mdstr).stream_content) = true <;>
    by_cases hrs : pyTruthy (pyOrStr (parse_didl_metadata mdstr).radio_show
        (extract_xml_value mdstr "r:streamContent")) = true ∧
      pyTruthy (parse_didl_metadata mdstr).artist = false <;>
    simp [hsi, hrs]

/-- C9: in a successful position query whose structured metadata yields
no truthy title and whose content URI indicates a live stream, the
title falls back to the stream-content value (the StreamContent tag of
the response, else the stream-content metadata field) exactly when that
value is truthy and otherwise stays the absent metadata title; the
artist falls back to the radio-show value exactly when that value is
truthy and the metadata artist is absent, and otherwise stays the
metadata artist; and the reported title always originates from the
metadata title or the stream-content value - never from the raw
content URI field. -/
theorem spec_C9 :
    ∀ (response mdstr : String),
    extract_xml_value response "TrackMetaData" = some mdstr →
    mdstr ≠ "" →
    pyTruthy (parse_didl_metadata mdstr).title = false →
    uriIndicatesStream (pyOrD (extract_xml_value response "TrackURI") "") = true →
    (pyTruthy (pyOrStr (extract_xml_value response "StreamContent")
        (parse_didl_metadata mdstr).stream_content) = true →
      (_get_position_info true response).track_title =
        pyOrStr (extract_xml_value response "StreamContent")
          (parse_didl_metadata mdstr).stream_content) ∧
    (pyTruthy (pyOrStr (extract_xml_value response "StreamContent")
        (parse_didl_metadata mdstr).stream_content) = false →
      (_get_position_info true response).track_title = (parse_didl_metadata mdstr).title ∧
      pyTruthy (_get_position_info true response).track_title = false) ∧
    (pyTruthy (pyOrStr (parse_didl_metadata mdstr).radio_show
        (extract_xml_value mdstr "r:streamContent")) = true →
      pyTruthy (parse_didl_metadata mdstr).artist = false →
      (_get_position_info true response).track_artist =
        pyOrStr (parse_didl_metadata mdstr).radio_show
          (extract_xml_value mdstr "r:streamContent")) ∧
    (pyTruthy (pyOrStr (parse_didl_metadata mdstr).radio_show
        (extract_xml_value mdstr "r:streamContent")) = false →
      (_get_position_info true response).track_artist =
        (parse_didl_metadata mdstr).artist) ∧
    (pyTruthy (parse_didl_metadata mdstr).artist = true →
      (_get_position_info true response).track_artist =
        (parse_didl_metadata mdstr).artist) ∧
    ((_get_position_info true response).track_title = (parse_didl_metadata mdstr).title ∨
      (_get_position_info true response).track_title =
        pyOrStr (extract_xml_value response "StreamContent")
          (parse_didl_metadata mdstr).stream_content) := by
  intro response mdstr hmd hne htitle huri
  rcases position_fallback_eq response mdstr hmd hne htitle huri with ⟨hT, hA⟩
  refine ⟨?_, ?_, ?_, ?_, ?_, ?_⟩
  · intro h
    rw [hT, if_pos h]
  · intro h
    have hnot : ¬ pyTruthy (pyOrStr (extract_xml_value response "StreamContent")
        (parse_didl_metadata mdstr).stream_content) = true := by simp [h]
    rw [hT, if_neg hnot]
    exact ⟨rfl, htitle⟩
  · intro h1 h2
    rw [hA, if_pos ⟨h1, h2⟩]
  · intro h
    rw [hA, if_neg (by simp [h])]
  · intro h
    rw [hA, if_neg (by simp [h])]
  · rw [hT]
    by_cases h : pyTruthy (pyOrStr (extract_xml_value response "StreamContent")
        (parse_didl_metadata mdstr).stream_content) = true
    · right
      rw [if_pos h]
    · left
      rw [if_neg h]

/-- C9 witness: a live radio stream whose DIDL metadata has no title
but carries a stream-content field; the title falls back to that field
and the artist remains absent. -/
theorem spec_C9_witness :
    (_get_position_info true
      "<TrackURI>x-sonosapi-stream:s1234</TrackURI><TrackMetaData>&lt;r:streamContent&gt;Now Playing KEXP&lt;/r:streamContent&gt;</TrackMetaData>").track_title =
      some "Now Playing KEXP" := by
  have h := (spec_C9
    "<TrackURI>x-sonosapi-stream:s1234</TrackURI><TrackMetaData>&lt;r:streamContent&gt;Now Playing KEXP&lt;/r:streamContent&gt;</TrackMetaData>"
    "&lt;r:streamContent&gt;Now Playing KEXP&lt;/r:streamContent&gt;"
    (by decide) (by decide) (by decide) (by decide)).1 (by decide)
  rw [h]
  decide

end SonosSubnet
